import Mathlib

/-!
Verification development for the SICETAC quote-acquisition client
(`app/services/sicetac.py`, `app/models/quotes.py`).

Python strings are modelled as Lean `String` / `List Char`; Python floats as
`ℚ` (the claims under study are about which arithmetic expressions the code
computes, not about rounding); XML element trees (the output of
`ElementTree.fromstring`) as a rose tree `XmlNode`; exceptions as `Except`
values.  `HTTPException(status_code, detail)` becomes the `HttpError`
structure.
-/

namespace Sicetac

/-- Python `str.replace(old, new)` for a single-character pattern `old`,
character-by-character over the string, as used in `_build_payload`. -/
def pyReplaceChar (c : Char) (rep : List Char) : List Char → List Char
  | [] => []
  | x :: xs => (if x = c then rep else [x]) ++ pyReplaceChar c rep xs

/-- The character sequence of the entity `&lt;`. -/
def ltEnt : List Char := ['&', 'l', 't', ';']

/-- The character sequence of the entity `&gt;`. -/
def gtEnt : List Char := ['&', 'g', 't', ';']

/-- The character sequence of the entity `&quot;`. -/
def quotEnt : List Char := ['&', 'q', 'u', 'o', 't', ';']

/-- The escaping applied to the inner business document before it is embedded
as the text of the SOAP `Request` element, from `sicetac.py` line 111:
`inner_xml.replace('<', '&lt;').replace('>', '&gt;').replace('"', '&quot;')`.
Note that the code does not escape the ampersand. -/
def escapeRequestText (s : List Char) : List Char :=
  pyReplaceChar '"' quotEnt (pyReplaceChar '>' gtEnt (pyReplaceChar '<' ltEnt s))

/-- The effect of `escapeRequestText` on one character: the three escaped
characters become their entities, every other character is untouched. -/
def escChar (c : Char) : List Char :=
  if c = '<' then ltEnt else if c = '>' then gtEnt else if c = '"' then quotEnt else [c]

/-- Helper for `unescape`: a right fold returning the pair of the original
suffix and its unescaped form; the first component (always the input itself,
see `unescapeAux_fst`) provides the lookahead needed to recognise an entity
at an ampersand. -/
def unescapeAux : List Char → (List Char × List Char)
  | [] => ([], [])
  | c :: rest =>
    let p := unescapeAux rest
    if c = '&' then
      if p.1.take 3 = ['l', 't', ';'] then ('&' :: p.1, '<' :: p.2.drop 3)
      else if p.1.take 3 = ['g', 't', ';'] then ('&' :: p.1, '>' :: p.2.drop 3)
      else if p.1.take 5 = ['q', 'u', 'o', 't', ';'] then ('&' :: p.1, '"' :: p.2.drop 5)
      else if p.1.take 5 = ['a', 'p', 'o', 's', ';'] then ('&' :: p.1, Char.ofNat 39 :: p.2.drop 5)
      else if p.1.take 4 = ['a', 'm', 'p', ';'] then ('&' :: p.1, '&' :: p.2.drop 4)
      else ('&' :: p.1, '&' :: p.2)
    else (c :: p.1, c :: p.2)

/-- Standard XML entity unescaping (one pass, as an XML parser such as
`ElementTree` performs when reading text content back): each of the five
predefined entities becomes its character, everything else is copied. -/
def unescape (s : List Char) : List Char :=
  (unescapeAux s).2

/-- Python `str.strip()`: remove leading and trailing whitespace. -/
def pyStrip (s : String) : String :=
  ⟨((s.data.dropWhile Char.isWhitespace).reverse.dropWhile Char.isWhitespace).reverse⟩

/-- Helper for `containsSub`: does `needle` occur as a contiguous run in the
haystack? -/
def containsSubAux (needle : List Char) : List Char → Bool
  | [] => needle.isEmpty
  | c :: rest => needle.isPrefixOf (c :: rest) || containsSubAux needle rest

/-- Python substring containment `needle in haystack`. -/
def containsSub (needle haystack : String) : Bool :=
  containsSubAux needle.data haystack.data

/-- Python `chr.lower()` on one character: ASCII case folding (every tag and
field name handled by the client is ASCII). -/
def pyLowerChar (c : Char) : Char :=
  if 65 ≤ c.toNat ∧ c.toNat ≤ 90 then Char.ofNat (c.toNat + 32) else c

/-- Python `str.lower()` (ASCII case folding). -/
def pyLower (s : String) : String :=
  ⟨s.data.map pyLowerChar⟩

/-- Numeric value of a list of decimal digit characters. -/
def digitsVal (l : List Char) : Nat :=
  l.foldl (fun a c => 10 * a + (c.toNat - 48)) 0

/-- Helper for `pyFloat`: parse the digits after an optional sign, `neg`
recording whether a leading minus was seen. -/
def pyFloatCore (cs : List Char) (neg : Bool) : Option ℚ :=
  let intPart := cs.takeWhile Char.isDigit
  let afterInt := cs.dropWhile Char.isDigit
  if afterInt = [] then
    if intPart = [] then none
    else some (if neg then -(digitsVal intPart : ℚ) else (digitsVal intPart : ℚ))
  else if afterInt.take 1 = ['.'] then
    let fracRest := afterInt.drop 1
    let fracPart := fracRest.takeWhile Char.isDigit
    let afterFrac := fracRest.dropWhile Char.isDigit
    if afterFrac ≠ [] then none
    else if intPart = [] ∧ fracPart = [] then none
    else
      let mag : ℚ := (digitsVal intPart : ℚ) + (digitsVal fracPart : ℚ) / (10 ^ fracPart.length)
      some (if neg then -mag else mag)
  else none

/-- Python `float(s)` on plain decimal literals (optional sign, integer part,
optional fractional part; no exponent, which the upstream service never
emits): `none` models a `ValueError`. -/
def pyFloat (s : String) : Option ℚ :=
  match s.data with
  | [] => none
  | c :: rest =>
    if c = '-' then pyFloatCore rest true
    else if c = '+' then pyFloatCore rest false
    else pyFloatCore (c :: rest) false

/-- The helper `_to_float` from `sicetac.py` lines 37-43: `None` and the empty
string give `None`, an unparsable string gives `None` (swallowed
`ValueError`), otherwise the parsed number. -/
def toFloat (value : Option String) : Option ℚ :=
  match value with
  | none => none
  | some v => if v = "" then none else pyFloat v

/-- An XML element as produced by `ElementTree.fromstring`: its (possibly
namespace-qualified) tag, its text content (`.text`, the text before the
first child, `none` when absent), and its child elements in document
order. -/
inductive XmlNode where
  | elem (tag : String) (text : Option String) (children : List XmlNode)

/-- The `.tag` attribute of an element. -/
def XmlNode.tag : XmlNode → String
  | .elem t _ _ => t

/-- The `.text` attribute of an element. -/
def XmlNode.text : XmlNode → Option String
  | .elem _ t _ => t

/-- The child elements of an element, in document order. -/
def XmlNode.children : XmlNode → List XmlNode
  | .elem _ _ c => c

/-- ElementTree `element.iter()`: the element itself followed by all its
descendants, in document (pre-)order. -/
def iterNodes : XmlNode → List XmlNode
  | .elem t x cs => .elem t x cs :: (cs.attach.map (fun c => iterNodes c.1)).flatten
decreasing_by
  have h := List.sizeOf_lt_of_mem c.2
  simp only [XmlNode.elem.sizeOf_spec]
  omega

/-- ElementTree `element.find(".//tag")` search space: all descendants of the
element (excluding the element itself), in document order. -/
def descendants (n : XmlNode) : List XmlNode :=
  (n.children.map iterNodes).flatten

/-- The `QuoteRequest` model (`app/models/quotes.py` lines 12-33), after
validation. -/
structure QuoteRequest where
  period : String
  configuration : String
  origin : String
  destination : String
  cargo_type : Option String
  unit_type : Option String
  logistics_hours : ℚ
  variablesField : Option (List String)
deriving DecidableEq

/-- The `QuoteResult` model (`app/models/quotes.py` lines 85-94). -/
structure QuoteResult where
  route_code : Option String
  route_name : Option String
  unit_type : Option String
  cargo_type : Option String
  mobilization_value : ℚ
  ton_value : Option ℚ
  hour_value : Option ℚ
  distance_km : Option ℚ
  minimum_payable : ℚ
deriving DecidableEq

/-- A raised `fastapi.HTTPException(status_code, detail)`. -/
structure HttpError where
  status : Nat
  detail : String
deriving DecidableEq

/-- The credentials drawn from `Settings` by `_build_payload`. -/
structure Settings where
  sicetac_username : String
  sicetac_password : String
deriving DecidableEq

/-- The module constant `_DEFAULT_VARIABLES` (`sicetac.py` lines 17-26). -/
def defaultVariables : List String :=
  ["RUTA", "NOMBREUNIDADTRANSPORTE", "NOMBRETIPOCARGA", "NOMBRERUTA",
   "VALOR", "VALORTONELADA", "VALORHORA", "DISTANCIA"]

/-- Line 60 of `_build_payload`: `quote_request.variables or _DEFAULT_VARIABLES`.
Python `or` takes the right operand when the left is falsy, i.e. `None` or the
empty list. -/
def chosenVariables (variablesField : Option (List String)) : List String :=
  match variablesField with
  | none => defaultVariables
  | some vs => if vs = [] then defaultVariables else vs

/-- A single quote character, kept out of string literals. -/
def sq : String := ⟨[Char.ofNat 39]⟩

/-- Python `", ".join(variables)` (`_build_payload` line 61). -/
def variableString (variablesField : Option (List String)) : String :=
  String.intercalate (", ") (chosenVariables variablesField)

/-- The `document_lines` list of `_build_payload` (lines 64-80): mandatory
company id, period, configuration, origin and destination, then the optional
unit-type and cargo-type filters upper-cased. -/
def documentLines (q : QuoteRequest) : List String :=
  ["<NUMNITEMPRESATRANSPORTE>900982995</NUMNITEMPRESATRANSPORTE>",
   "<PERIODO>" ++ q.period ++ "</PERIODO>",
   "<CONFIGURACION>" ++ q.configuration ++ "</CONFIGURACION>",
   "<ORIGEN>" ++ q.origin ++ "</ORIGEN>",
   "<DESTINO>" ++ q.destination ++ "</DESTINO>"] ++
  (match q.unit_type with
   | some u => ["<NOMBREUNIDADTRANSPORTE>" ++ u.toUpper ++ "</NOMBREUNIDADTRANSPORTE>"]
   | none => []) ++
  (match q.cargo_type with
   | some c => ["<NOMBRETIPOCARGA>" ++ c.toUpper ++ "</NOMBRETIPOCARGA>"]
   | none => [])

/-- The `document_section` string (`_build_payload` line 82). -/
def documentSection (q : QuoteRequest) : String :=
  String.intercalate ("\n    ") (documentLines q)

/-- The `inner_xml` f-string of `_build_payload` (lines 85-101). -/
def innerXml (settings : Settings) (q : QuoteRequest) : String :=
  "<?xml version=" ++ sq ++ "1.0" ++ sq ++ " encoding=" ++ sq ++ "ISO-8859-1" ++ sq ++ " ?>\n" ++
  "<root>\n  <acceso>\n    <username>" ++ settings.sicetac_username ++
  "</username>\n    <password>" ++ settings.sicetac_password ++
  "</password>\n  </acceso>\n  <solicitud>\n    <tipo>1</tipo>\n    <procesoid>26</procesoid>\n  </solicitud>\n  <variables>\n    " ++
  variableString q.variablesField ++
  "\n  </variables>\n  <documento>\n    " ++
  documentSection q ++
  "\n  </documento>\n</root>"

/-- The SOAP envelope f-string of `_build_payload` (lines 104-114): the inner
document is embedded as the text of the `Request` element after
`escapeRequestText`. -/
def buildPayload (settings : Settings) (q : QuoteRequest) : String :=
  "<?xml version=\"1.0\" encoding=\"ISO-8859-1\"?>\n" ++
  "<SOAP-ENV:Envelope\n    xmlns:SOAP-ENV=\"http://schemas.xmlsoap.org/soap/envelope/\"\n    xmlns:xsi=\"http://www.w3.org/2001/XMLSchema-instance\"\n    xmlns:xsd=\"http://www.w3.org/2001/XMLSchema\">\n" ++
  "  <SOAP-ENV:Body SOAP-ENV:encodingStyle=\"http://schemas.xmlsoap.org/soap/encoding/\">\n" ++
  "    <NS1:AtenderMensajeRNDC xmlns:NS1=\"urn:BPMServicesIntf-IBPMServices\">\n" ++
  "      <Request xsi:type=\"xsd:string\">" ++
  String.mk (escapeRequestText (innerXml settings q).data) ++
  "</Request>\n    </NS1:AtenderMensajeRNDC>\n  </SOAP-ENV:Body>\n</SOAP-ENV:Envelope>"

/-- What a single network attempt inside `_post_payload` encounters: either an
HTTP response with a status code and body text, or an exception raised by the
`httpx` call (connection failure / timeout). -/
inductive AttemptOutcome where
  | response (statusCode : Nat) (text : String)
  | connectError
  | timeoutError
deriving DecidableEq

/-- The exception (re-)raised by one attempt of `_post_payload`
(lines 130-154): `response.raise_for_status()` raises `HTTPStatusError` for
every 4xx/5xx status, and the `except` clauses log and re-raise every
exception unchanged. -/
inductive TransportFailure where
  | connectError
  | timeout
  | httpStatusError (code : Nat)
deriving DecidableEq

/-- One attempt of the body of `_post_payload`: a 4xx/5xx response raises
`HTTPStatusError` via `raise_for_status`, other statuses return the response
text; network exceptions propagate. -/
def postAttempt : AttemptOutcome → Except TransportFailure String
  | .response code text =>
    if 400 ≤ code ∧ code < 600 then .error (.httpStatusError code) else .ok text
  | .connectError => .error .connectError
  | .timeoutError => .error .timeout

/-- The retry loop of the tenacity decorator `_retry_request` (lines 29-34):
`stop=stop_after_attempt(3)` and the default retry predicate, which retries on
any exception.  `attemptOf n` is what the n-th attempt (1-based) encounters;
`made` counts attempts already made, `remaining` the retries still allowed.
Returns the final outcome together with the number of attempts performed;
when the budget is exhausted tenacity surfaces the last attempt's exception
(wrapped in a `RetryError`). -/
def retryGo (attemptOf : Nat → AttemptOutcome) (made : Nat) :
    Nat → Except TransportFailure String × Nat
  | 0 =>
    (match postAttempt (attemptOf (made + 1)) with
     | .ok t => (.ok t, made + 1)
     | .error f => (.error f, made + 1))
  | r + 1 =>
    (match postAttempt (attemptOf (made + 1)) with
     | .ok t => (.ok t, made + 1)
     | .error _ => retryGo attemptOf (made + 1) r)

/-- The configured total-attempt budget, `stop_after_attempt(3)` (line 30). -/
def stopAfterAttempt : Nat := 3

/-- `_post_payload` under the `_retry_request` decorator: up to
`stopAfterAttempt` total attempts. -/
def postPayload (attemptOf : Nat → AttemptOutcome) :
    Except TransportFailure String × Nat :=
  retryGo attemptOf 0 (stopAfterAttempt - 1)

/-- The tenacity backoff `wait_exponential(multiplier=1, min=1, max=10)`
(line 30): the delay in seconds after the n-th failed attempt is
`max(min, min(multiplier * 2^(n-1), max))`. -/
def waitExponential (attemptNumber : Nat) : Nat :=
  max 1 (min (2 ^ (attemptNumber - 1)) 10)

/-- Is this attempt outcome one of the transient failures named by the spec:
connection error, timeout, or a 5xx status? -/
def isTransient : AttemptOutcome → Bool
  | .response code _ => 500 ≤ code && code < 600
  | .connectError => true
  | .timeoutError => true

/-- Lines 163-175 of `_parse_response`: find the SOAP Body among the children
of the envelope root by the substring test `'Body' in elem.tag`. -/
def findBody (soapRoot : XmlNode) : Option XmlNode :=
  soapRoot.children.find? (fun e => containsSub ("Body") e.tag)

/-- Lines 177-189: find the response element among the children of the Body by
the substring test `'AtenderMensajeRNDCResponse' in elem.tag`. -/
def findResponseElem (body : XmlNode) : Option XmlNode :=
  body.children.find? (fun e => containsSub ("AtenderMensajeRNDCResponse") e.tag)

/-- Lines 191-201: find the return element: first scan `response_elem.iter()`
(the element and all descendants, in document order) for a tag containing
`return` case-insensitively; failing that, `find('.//return')`, i.e. the
first descendant whose tag is exactly `return`. -/
def findReturnElem (respElem : XmlNode) : Option XmlNode :=
  match (iterNodes respElem).find? (fun e => containsSub ("return") (pyLower e.tag)) with
  | some e => some e
  | none => (descendants respElem).find? (fun e => e.tag == "return")

/-- Lines 163-213 of `_parse_response`: unwrap the SOAP envelope tree down to
the text of the return element, with the three `HTTP_502_BAD_GATEWAY`
failures of the code. -/
def extractReturnText (soapRoot : XmlNode) : Except HttpError String :=
  match findBody soapRoot with
  | none => .error ⟨502, "Invalid SOAP response from SICETAC"⟩
  | some body =>
    match findResponseElem body with
    | none => .error ⟨502, "Invalid SICETAC response structure"⟩
    | some respElem =>
      match findReturnElem respElem with
      | none => .error ⟨502, "Empty response from SICETAC"⟩
      | some retElem =>
        match retElem.text with
        | none => .error ⟨502, "Empty response from SICETAC"⟩
        | some innerText => .ok innerText

/-- Line 244: the per-document dictionary
`{child.tag.lower(): (child.text or "").strip() for child in document}`,
kept as the association list of (lower-cased tag, stripped text) pairs in
document order; a duplicate tag overwrites the earlier entry. -/
def docValues (doc : XmlNode) : List (String × String) :=
  doc.children.map (fun c => (pyLower c.tag, pyStrip (c.text.getD (""))))

/-- Python `dict` lookup `values.get(key)` over the association list built by
`docValues`: the value of the last pair carrying the key. -/
def dictGet (pairs : List (String × String)) (key : String) : Option String :=
  (pairs.reverse.find? (fun p => p.1 == key)).map Prod.snd

/-- The loop body of `_parse_response` lines 243-272 for one `documento`
element: skip when the `valor` field is missing or empty, skip when it does
not parse; otherwise build the `QuoteResult`, with
`minimum_payable = mobilization (+ hour_value * logistics_hours when the
hour value is present)`. -/
def extractQuote (logisticsHours : ℚ) (doc : XmlNode) : Option QuoteResult :=
  let values := docValues doc
  let mobilizationText := dictGet values ("valor")
  if mobilizationText = none ∨ mobilizationText = some ("") then none
  else
    match toFloat mobilizationText with
    | none => none
    | some mobilization =>
      let hourValue := toFloat (dictGet values ("valorhora"))
      let minimumPayable :=
        match hourValue with
        | some hv => mobilization + hv * logisticsHours
        | none => mobilization
      some
        { route_code := dictGet values ("ruta")
          route_name := dictGet values ("nombreruta")
          unit_type := dictGet values ("nombreunidadtransporte")
          cargo_type := dictGet values ("nombretipocarga")
          mobilization_value := mobilization
          ton_value := toFloat (dictGet values ("valortonelada"))
          hour_value := hourValue
          distance_km := toFloat (dictGet values ("distancia"))
          minimum_payable := minimumPayable }

/-- Line 232, `root.findall("documento")`: the `documento` children of the
business document, in order. -/
def documentos (root : XmlNode) : List XmlNode :=
  root.children.filter (fun e => e.tag == "documento")

/-- Lines 232-282: collect the `documento` children; 404 when there are none;
run the extraction loop; 404 when no document yielded a quote. -/
def parseDocuments (logisticsHours : ℚ) (root : XmlNode) :
    Except HttpError (List QuoteResult) :=
  let documents := documentos root
  if documents.isEmpty then
    .error ⟨404, "Sicetac response did not include any quotes"⟩
  else
    let results := documents.filterMap (extractQuote logisticsHours)
    if results.isEmpty then
      .error ⟨404, "Sicetac did not return monetary values for the requested parameters"⟩
    else .ok results

/-- Lines 226-230: `root.find("ErrorMSG")` (first child whose tag is exactly
`ErrorMSG`); when it exists and its text is truthy (present and non-empty)
the stripped text is the upstream business error. -/
def truthyErrorMsg (root : XmlNode) : Option String :=
  match root.children.find? (fun e => e.tag == "ErrorMSG") with
  | some errorNode =>
    match errorNode.text with
    | some t => if t ≠ "" then some (pyStrip t) else none
    | none => none
  | none => none

/-- Lines 226-282 of `_parse_response`, from the parsed inner business
document on: the `ErrorMSG` sentinel check followed by document extraction. -/
def parseBusiness (logisticsHours : ℚ) (root : XmlNode) :
    Except HttpError (List QuoteResult) :=
  match truthyErrorMsg root with
  | some msg => .error ⟨404, msg⟩
  | none => parseDocuments logisticsHours root

/-- The whole of `_parse_response` (lines 156-282).  `parseXml` stands for
`defusedxml.ElementTree.fromstring`, returning `none` on a `ParseError`;
both parse failures land in the same `except` clause (lines 218-224). -/
def parseResponse (parseXml : String → Option XmlNode) (logisticsHours : ℚ)
    (responseText : String) : Except HttpError (List QuoteResult) :=
  match parseXml responseText with
  | none => .error ⟨502, "Failed to parse response from Sicetac"⟩
  | some soapRoot =>
    match extractReturnText soapRoot with
    | .error e => .error e
    | .ok innerText =>
      match parseXml innerText with
      | none => .error ⟨502, "Failed to parse response from Sicetac"⟩
      | some root => parseBusiness logisticsHours root

/-- The error surfaced by `fetch_quotes`: either the transport exception that
escaped the retry wrapper, or the `HTTPException` raised by parsing. -/
inductive FetchError where
  | transport (f : TransportFailure)
  | http (e : HttpError)
deriving DecidableEq

/-- `fetch_quotes` (lines 50-56): build, post with retry, parse.  The payload
build is pure string construction, so the observable behaviour is determined
by the per-attempt outcomes and the response text; the second component is
the number of transport attempts performed. -/
def fetchQuotes (parseXml : String → Option XmlNode) (logisticsHours : ℚ)
    (attemptOf : Nat → AttemptOutcome) :
    Except FetchError (List QuoteResult) × Nat :=
  match postPayload attemptOf with
  | (.error f, n) => (.error (.transport f), n)
  | (.ok text, n) =>
    match parseResponse parseXml logisticsHours text with
    | .error e => (.error (.http e), n)
    | .ok res => (.ok res, n)

/-- The property making the extraction loop keep a `documento` element: its
`valor` field is present, non-empty, and parses as a number (`sicetac.py`
lines 247-254). -/
def hasParsableValor (doc : XmlNode) : Bool :=
  match dictGet (docValues doc) ("valor") with
  | none => false
  | some s => !(s == "") && (pyFloat s).isSome

/-- The `QuoteResult` built for a kept document (the record constructed at
lines 256-270), as a total function of the document; on documents that the
loop would skip the mobilization defaults to `0` (never used there). -/
def extractedQuote (lh : ℚ) (doc : XmlNode) : QuoteResult :=
  let values := docValues doc
  let mobilization := (toFloat (dictGet values ("valor"))).getD 0
  let hourValue := toFloat (dictGet values ("valorhora"))
  { route_code := dictGet values ("ruta")
    route_name := dictGet values ("nombreruta")
    unit_type := dictGet values ("nombreunidadtransporte")
    cargo_type := dictGet values ("nombretipocarga")
    mobilization_value := mobilization
    ton_value := toFloat (dictGet values ("valortonelada"))
    hour_value := hourValue
    distance_km := toFloat (dictGet values ("distancia"))
    minimum_payable :=
      match hourValue with
      | some hv => mobilization + hv * lh
      | none => mobilization }

/-- A SOAP envelope tree of the shape the upstream returns: an envelope whose
body holds the operation response, which holds the return element carrying
the escaped inner document as text.  The tags are parameters because the
upstream is inconsistent about namespace prefixes. -/
def soapEnvelope (envTag bodyTag respTag retTag : String) (retText : String) : XmlNode :=
  .elem envTag none
    [.elem bodyTag none
      [.elem respTag none
        [.elem retTag (some retText) []]]]

/-- The business document of the specification's sentinel example:
`<root><ErrorMSG>NO SE ENCONTRO INFORMACION</ErrorMSG></root>`. -/
def demoErrorRoot : XmlNode :=
  .elem ("root") none [.elem ("ErrorMSG") (some ("NO SE ENCONTRO INFORMACION")) []]

/-- Attempt outcomes refuting claim C3: the first attempt is answered with a
`400 Bad Request` (a non-transient client error) and every later attempt
succeeds. -/
def c3Attempts : Nat → AttemptOutcome :=
  fun n => if n = 1 then .response 400 ("Bad Request") else .response 200 ("ok")

/-- Attempt outcomes witnessing the retry policy: connection failures on the
first two attempts, success on the third. -/
def c2Attempts : Nat → AttemptOutcome :=
  fun n => if n ≤ 2 then .connectError else .response 200 ("R")

/-- A business document with one priced `documento` (valor 10, valorhora 2). -/
def c4Root : XmlNode :=
  .elem ("root") none
    [.elem ("documento") none
      [.elem ("VALOR") (some ("10")) [], .elem ("VALORHORA") (some ("2")) []]]

/-- The quote extracted from `c4Root` at 3 logistics hours. -/
def c4Quote : QuoteResult :=
  { route_code := none, route_name := none, unit_type := none, cargo_type := none,
    mobilization_value := 10, ton_value := none, hour_value := some 2,
    distance_km := none, minimum_payable := 16 }

/-- A business document with one priced and one unpriced `documento`. -/
def c5Root : XmlNode :=
  .elem ("root") none
    [.elem ("documento") none [.elem ("VALOR") (some ("5")) []],
     .elem ("documento") none [.elem ("RUTA") (some ("106")) []]]

/-- A business document with no `documento` children at all. -/
def c7NoDocsRoot : XmlNode :=
  .elem ("root") none [.elem ("other") none []]

/-- A business document whose only `documento` carries no `valor`. -/
def c7NoValuesRoot : XmlNode :=
  .elem ("root") none [.elem ("documento") none [.elem ("RUTA") (some ("106")) []]]

/-- A business document carrying both an `ErrorMSG` sentinel and a priced
`documento`. -/
def c10Root : XmlNode :=
  .elem ("root") none
    [.elem ("ErrorMSG") (some ("NO DATA")) [],
     .elem ("documento") none [.elem ("VALOR") (some ("5")) []]]

/-- A validated request whose `variables` override is the empty list. -/
def c9Request : QuoteRequest :=
  { period := "202401", configuration := "3S3", origin := "11001000",
    destination := "05001000", cargo_type := none, unit_type := none,
    logistics_hours := 0, variablesField := some [] }

/-- Concrete credentials for the request-builder witness. -/
def c9Settings : Settings :=
  { sicetac_username := "user", sicetac_password := "pass" }

deriving instance DecidableEq for Except

theorem pyReplaceChar_append (c : Char) (rep a b : List Char) :
    pyReplaceChar c rep (a ++ b) = pyReplaceChar c rep a ++ pyReplaceChar c rep b := by
  induction a with
  | nil => rfl
  | cons x xs ih => simp [pyReplaceChar, ih]

theorem escapeRequestText_append (a b : List Char) :
    escapeRequestText (a ++ b) = escapeRequestText a ++ escapeRequestText b := by
  simp [escapeRequestText, pyReplaceChar_append]

theorem escapeRequestText_singleton (x : Char) :
    escapeRequestText [x] = escChar x := by
  by_cases h1 : x = '<'
  · subst h1; decide
  by_cases h2 : x = '>'
  · subst h2; decide
  by_cases h3 : x = '"'
  · subst h3; decide
  simp [escapeRequestText, pyReplaceChar, escChar, h1, h2, h3]

theorem escapeRequestText_cons (x : Char) (s : List Char) :
    escapeRequestText (x :: s) = escChar x ++ escapeRequestText s := by
  rw [show x :: s = [x] ++ s from rfl, escapeRequestText_append, escapeRequestText_singleton]

theorem unescapeAux_fst (s : List Char) : (unescapeAux s).1 = s := by
  induction s with
  | nil => rfl
  | cons c rest ih =>
    simp only [unescapeAux, ih]
    split_ifs <;> simp_all

theorem unescape_cons_ne (c : Char) (t : List Char) (h : c ≠ '&') :
    unescape (c :: t) = c :: unescape t := by
  simp [unescape, unescapeAux, h]

theorem escape_unescape_id (s : List Char) (h : '&' ∉ s) :
    unescape (escapeRequestText s) = s := by
  induction s with
  | nil => rfl
  | cons x xs ih =>
    have hx : x ≠ '&' := fun e => h (by rw [e]; exact List.mem_cons_self '&' xs)
    have hxs : '&' ∉ xs := fun m => h (List.mem_cons_of_mem _ m)
    rw [escapeRequestText_cons]
    by_cases h1 : x = '<'
    · subst h1
      rw [show escChar '<' ++ escapeRequestText xs =
        '&' :: 'l' :: 't' :: ';' :: escapeRequestText xs from rfl]
      rw [show unescape ('&' :: 'l' :: 't' :: ';' :: escapeRequestText xs) =
        '<' :: unescape (escapeRequestText xs) from by
          simp [unescape, unescapeAux, unescapeAux_fst]]
      rw [ih hxs]
    by_cases h2 : x = '>'
    · subst h2
      rw [show escChar '>' ++ escapeRequestText xs =
        '&' :: 'g' :: 't' :: ';' :: escapeRequestText xs from rfl]
      rw [show unescape ('&' :: 'g' :: 't' :: ';' :: escapeRequestText xs) =
        '>' :: unescape (escapeRequestText xs) from by
          simp [unescape, unescapeAux, unescapeAux_fst]]
      rw [ih hxs]
    by_cases h3 : x = '"'
    · subst h3
      rw [show escChar '"' ++ escapeRequestText xs =
        '&' :: 'q' :: 'u' :: 'o' :: 't' :: ';' :: escapeRequestText xs from rfl]
      rw [show unescape ('&' :: 'q' :: 'u' :: 'o' :: 't' :: ';' :: escapeRequestText xs) =
        '"' :: unescape (escapeRequestText xs) from by
          simp [unescape, unescapeAux, unescapeAux_fst]]
      rw [ih hxs]
    rw [show escChar x = [x] from by simp [escChar, h1, h2, h3]]
    rw [show ([x] ++ escapeRequestText xs) = x :: escapeRequestText xs from rfl]
    rw [unescape_cons_ne x _ hx, ih hxs]

/-- Claim C1, amended.  The escaping applied before embedding the inner
document as the text of the SOAP `Request` element rewrites angle brackets
and double quotes to their entities but leaves ampersands alone, so the
round-trip identity `unescape (escape D) = D` holds exactly for the strings
`D` that contain no ampersand. -/
theorem claim_C1 (s : List Char) (h : '&' ∉ s) :
    unescape (escapeRequestText s) = s ∧
    escapeRequestText ['<'] = ltEnt ∧
    escapeRequestText ['>'] = gtEnt ∧
    escapeRequestText ['"'] = quotEnt :=
  ⟨escape_unescape_id s h, by decide, by decide, by decide⟩

/-- Witness for claim C1 at the concrete ampersand-free inner document
fragment `<a="1">`. -/
theorem claim_C1_witness :
    ('&' ∉ (['<', 'a', '=', '"', '1', '"', '>'] : List Char)) ∧
    (unescape (escapeRequestText ['<', 'a', '=', '"', '1', '"', '>']) =
        ['<', 'a', '=', '"', '1', '"', '>'] ∧
      escapeRequestText ['<'] = ltEnt ∧
      escapeRequestText ['>'] = gtEnt ∧
      escapeRequestText ['"'] = quotEnt) :=
  ⟨by decide, claim_C1 ['<', 'a', '=', '"', '1', '"', '>'] (by decide)⟩

/-- Counterexample to claim C1 as stated: the code's escaping does not touch
ampersands, and the round-trip fails on the string `&lt;`, which escapes to
itself and unescapes to `<`. -/
theorem claim_C1_counterexample :
    escapeRequestText ['&'] = ['&'] ∧
    unescape (escapeRequestText ['&', 'l', 't', ';']) ≠ ['&', 'l', 't', ';'] := by
  decide

theorem isTransient_error (o : AttemptOutcome) (h : isTransient o = true) :
    ∃ f, postAttempt o = .error f := by
  cases o with
  | response code text =>
    simp only [isTransient, Bool.and_eq_true, decide_eq_true_eq] at h
    exact ⟨.httpStatusError code, by simp only [postAttempt]; rw [if_pos ⟨by omega, h.2⟩]⟩
  | connectError => exact ⟨.connectError, rfl⟩
  | timeoutError => exact ⟨.timeout, rfl⟩

theorem postAttempt_ok (o : AttemptOutcome) (code : Nat) (text : String)
    (h : o = .response code text) (hc : code < 400) :
    postAttempt o = .ok text := by
  rw [h]; simp only [postAttempt]; rw [if_neg (by omega)]

/-- Claim C2: with the configured policy (`stop_after_attempt(3)`,
`wait_exponential(multiplier=1, min=1, max=10)`), transient failures on
attempts 1 and 2 followed by a success on attempt 3 make the transport — and
`fetch_quotes` above it — return normally after exactly 3 attempts, while a
third failure surfaces that last failure after exactly 3 attempts; the
backoff delays are bounded to the 1s-10s window and non-decreasing. -/
theorem claim_C2 (attemptOf : Nat → AttemptOutcome)
    (h1 : isTransient (attemptOf 1) = true)
    (h2 : isTransient (attemptOf 2) = true) :
    (∀ code text, attemptOf 3 = .response code text → code < 400 →
      postPayload attemptOf = (.ok text, 3)) ∧
    (isTransient (attemptOf 3) = true →
      ∃ f, postAttempt (attemptOf 3) = .error f ∧
        postPayload attemptOf = (.error f, 3)) ∧
    (∀ (px : String → Option XmlNode) (lh : ℚ) (res : List QuoteResult)
        (code : Nat) (text : String),
      attemptOf 3 = .response code text → code < 400 →
      parseResponse px lh text = .ok res →
      fetchQuotes px lh attemptOf = (.ok res, 3)) ∧
    (waitExponential 1 = 1 ∧ waitExponential 2 = 2 ∧
      ∀ n, 1 ≤ waitExponential n ∧ waitExponential n ≤ 10 ∧
        waitExponential n ≤ waitExponential (n + 1)) := by
  obtain ⟨f1, hf1⟩ := isTransient_error _ h1
  obtain ⟨f2, hf2⟩ := isTransient_error _ h2
  have hok : ∀ code text, attemptOf 3 = .response code text → code < 400 →
      postPayload attemptOf = (.ok text, 3) := by
    intro code text h3 hcode
    have hp3 := postAttempt_ok _ code text h3 hcode
    simp [postPayload, stopAfterAttempt, retryGo, hf1, hf2, hp3]
  refine ⟨hok, ?_, ?_, ?_⟩
  · intro h3
    obtain ⟨f3, hf3⟩ := isTransient_error _ h3
    exact ⟨f3, hf3, by simp [postPayload, stopAfterAttempt, retryGo, hf1, hf2, hf3]⟩
  · intro px lh res code text h3 hcode hparse
    have hpp := hok code text h3 hcode
    simp [fetchQuotes, hpp, hparse]
  · refine ⟨by decide, by decide, fun n => ⟨le_max_left _ _,
      max_le (by norm_num) (min_le_right _ _), ?_⟩⟩
    have hpow : 2 ^ (n - 1) ≤ 2 ^ (n + 1 - 1) :=
      Nat.pow_le_pow_right (by norm_num) (by omega)
    exact max_le_max (le_refl 1) (min_le_min hpow (le_refl 10))

/-- Witness for claim C2: two connection errors then a `200` response; the
transport returns the third attempt's body after exactly 3 attempts. -/
theorem claim_C2_witness :
    isTransient (c2Attempts 1) = true ∧ isTransient (c2Attempts 2) = true ∧
    postPayload c2Attempts = (.ok ("R"), 3) := by
  refine ⟨by decide, by decide, ?_⟩
  exact (claim_C2 c2Attempts (by decide) (by decide)).1 200 ("R") (by decide) (by decide)

/-- Claim C3, amended.  A 4xx client error is not exempt from retrying: the
tenacity decorator's default predicate retries every exception, including the
`HTTPStatusError` that `raise_for_status` raises for a 4xx, so a 4xx on
attempt 1 is followed by attempt 2 (and, if attempts 2 and 3 also fail, by a
third attempt before the last failure surfaces). -/
theorem claim_C3 (attemptOf : Nat → AttemptOutcome) (c1 : Nat) (t1 : String)
    (h1 : attemptOf 1 = .response c1 t1) (h4 : 400 ≤ c1) (h5 : c1 < 500) :
    postAttempt (attemptOf 1) = .error (.httpStatusError c1) ∧
    (∀ c2 t2, attemptOf 2 = .response c2 t2 → c2 < 400 →
      postPayload attemptOf = (.ok t2, 2)) ∧
    (∀ f2 f3, postAttempt (attemptOf 2) = .error f2 →
      postAttempt (attemptOf 3) = .error f3 →
      postPayload attemptOf = (.error f3, 3)) := by
  have hp1 : postAttempt (attemptOf 1) = .error (.httpStatusError c1) := by
    rw [h1]; simp only [postAttempt]; rw [if_pos ⟨h4, by omega⟩]
  refine ⟨hp1, ?_, ?_⟩
  · intro c2 t2 h2 hc2
    have hp2 := postAttempt_ok _ c2 t2 h2 hc2
    simp [postPayload, stopAfterAttempt, retryGo, hp1, hp2]
  · intro f2 f3 hf2 hf3
    simp [postPayload, stopAfterAttempt, retryGo, hp1, hf2, hf3]

/-- Witness for claim C3 (amended) at the concrete outcomes of
`c3Attempts`: a 400 on attempt 1, then a 200 whose body is returned. -/
theorem claim_C3_witness :
    c3Attempts 1 = .response 400 ("Bad Request") ∧
    postPayload c3Attempts = (.ok ("ok"), 2) := by
  refine ⟨by decide, ?_⟩
  exact (claim_C3 c3Attempts 400 ("Bad Request") (by decide) (by decide)
    (by decide)).2.1 200 ("ok") (by decide) (by decide)

/-- Counterexample to claim C3 as stated: with a 400 on the first attempt the
transport does not raise after that single attempt — it retries, and the
second attempt's success is returned (2 attempts, not 1). -/
theorem claim_C3_counterexample :
    postPayload c3Attempts = (.ok ("ok"), 2) ∧
    (postPayload c3Attempts).2 ≠ 1 := by
  decide

theorem extractQuote_isSome (lh : ℚ) (doc : XmlNode) :
    (extractQuote lh doc).isSome = hasParsableValor doc := by
  unfold extractQuote hasParsableValor
  rcases h : dictGet (docValues doc) ("valor") with _ | s
  · simp [h]
  · by_cases hs : s = ""
    · subst hs; simp [h]
    · simp only [h]
      rw [if_neg (by simp [hs])]
      rcases hf : pyFloat s with _ | v <;> simp [toFloat, hs, hf]

theorem extractQuote_eq (lh : ℚ) (doc : XmlNode) (h : hasParsableValor doc = true) :
    extractQuote lh doc = some (extractedQuote lh doc) := by
  unfold hasParsableValor at h
  rcases hv : dictGet (docValues doc) ("valor") with _ | s
  · rw [hv] at h; cases h
  · rw [hv] at h
    simp only [Bool.and_eq_true, Bool.not_eq_true', beq_eq_false_iff_ne] at h
    obtain ⟨hs, hps⟩ := h
    rcases hf : pyFloat s with _ | v
    · rw [hf] at hps; simp at hps
    · unfold extractQuote extractedQuote
      dsimp only
      rw [hv]
      rw [if_neg (by simp [hs])]
      simp [toFloat, hs, hf]

theorem extractQuote_none (lh : ℚ) (doc : XmlNode) (h : hasParsableValor doc = false) :
    extractQuote lh doc = none := by
  have hs := extractQuote_isSome lh doc
  rw [h] at hs
  rcases o : extractQuote lh doc with _ | q
  · rfl
  · rw [o] at hs; simp at hs

theorem filterMap_extractQuote (lh : ℚ) (l : List XmlNode) :
    l.filterMap (extractQuote lh) = (l.filter hasParsableValor).map (extractedQuote lh) := by
  induction l with
  | nil => rfl
  | cons d ds ih =>
    by_cases h : hasParsableValor d = true
    · rw [List.filterMap_cons, extractQuote_eq lh d h,
        List.filter_cons_of_pos (by simp [h]), List.map_cons, ih]
    · rw [List.filterMap_cons, extractQuote_none lh d (by simpa using h),
        List.filter_cons_of_neg (by simp [h]), ih]

theorem parseDocuments_eq (lh : ℚ) (root : XmlNode) :
    parseDocuments lh root =
      (if (documentos root).isEmpty then
        Except.error ⟨404, "Sicetac response did not include any quotes"⟩
      else if ((documentos root).filterMap (extractQuote lh)).isEmpty then
        Except.error ⟨404, "Sicetac did not return monetary values for the requested parameters"⟩
      else Except.ok ((documentos root).filterMap (extractQuote lh))) := rfl

theorem parseBusiness_none (lh : ℚ) (root : XmlNode) (h : truthyErrorMsg root = none) :
    parseBusiness lh root = parseDocuments lh root := by
  unfold parseBusiness
  rw [h]

theorem parseBusiness_some (lh : ℚ) (root : XmlNode) (msg : String)
    (h : truthyErrorMsg root = some msg) :
    parseBusiness lh root = .error ⟨404, msg⟩ := by
  unfold parseBusiness
  rw [h]

theorem parseBusiness_ok_elim (lh : ℚ) (root : XmlNode) (res : List QuoteResult)
    (h : parseBusiness lh root = .ok res) :
    truthyErrorMsg root = none ∧
    res = (documentos root).filterMap (extractQuote lh) := by
  rcases he : truthyErrorMsg root with _ | msg
  · rw [parseBusiness_none lh root he, parseDocuments_eq] at h
    by_cases h1 : (documentos root).isEmpty = true
    · rw [if_pos h1] at h; simp at h
    · rw [if_neg h1] at h
      by_cases h2 : ((documentos root).filterMap (extractQuote lh)).isEmpty = true
      · rw [if_pos h2] at h; simp at h
      · rw [if_neg h2] at h
        exact ⟨rfl, (Except.ok.inj h).symm⟩
  · rw [parseBusiness_some lh root msg he] at h; simp at h

theorem extractQuote_some_inv (lh : ℚ) (doc : XmlNode) (q : QuoteResult)
    (h : extractQuote lh doc = some q) :
    (∀ hv : ℚ, q.hour_value = some hv →
      q.minimum_payable = q.mobilization_value + hv * lh) ∧
    (q.hour_value = none → q.minimum_payable = q.mobilization_value) := by
  unfold extractQuote at h
  dsimp only at h
  rcases hv : dictGet (docValues doc) ("valor") with _ | s
  · rw [hv] at h; simp at h
  · rw [hv] at h
    by_cases hs : s = ""
    · subst hs; simp at h
    · rw [if_neg (by simp [hs])] at h
      rcases hf : toFloat (some s) with _ | mob
      · rw [hf] at h; simp at h
      · rw [hf] at h
        rcases hh : toFloat (dictGet (docValues doc) ("valorhora")) with _ | hvv
        · rw [hh] at h
          obtain rfl := Option.some.inj h
          refine ⟨fun hv hc => ?_, fun _ => rfl⟩
          simp at hc
        · rw [hh] at h
          obtain rfl := Option.some.inj h
          refine ⟨fun hv hc => ?_, fun hc => ?_⟩
          · obtain rfl := Option.some.inj hc
            rfl
          · simp at hc

/-- Claim C4: every `QuoteResult` the parser produces satisfies the derived
pricing relation — with an hour value present, `minimum_payable` is
`mobilization_value + hour_value * logistics_hours`; with it absent,
`minimum_payable` is exactly `mobilization_value`. -/
theorem claim_C4 (lh : ℚ) (root : XmlNode) (res : List QuoteResult) (q : QuoteResult)
    (hlh : 0 ≤ lh) (hok : parseBusiness lh root = .ok res) (hq : q ∈ res) :
    (∀ hv : ℚ, q.hour_value = some hv →
      q.minimum_payable = q.mobilization_value + hv * lh) ∧
    (q.hour_value = none → q.minimum_payable = q.mobilization_value) := by
  obtain ⟨-, hres⟩ := parseBusiness_ok_elim lh root res hok
  subst hres
  obtain ⟨doc, -, hdoc⟩ := List.mem_filterMap.mp hq
  exact extractQuote_some_inv lh doc q hdoc

/-- Witness for claim C4: a document with valor 10 and valorhora 2 at 3
logistics hours yields `minimum_payable = 10 + 2 * 3 = 16`. -/
theorem claim_C4_witness :
    (0 : ℚ) ≤ 3 ∧ parseBusiness 3 c4Root = .ok [c4Quote] ∧ c4Quote ∈ [c4Quote] ∧
    ((∀ hv : ℚ, c4Quote.hour_value = some hv →
        c4Quote.minimum_payable = c4Quote.mobilization_value + hv * 3) ∧
      (c4Quote.hour_value = none →
        c4Quote.minimum_payable = c4Quote.mobilization_value)) := by
  have hok : parseBusiness 3 c4Root = .ok [c4Quote] := by with_unfolding_all rfl
  exact ⟨by norm_num, hok, List.mem_singleton_self _,
    claim_C4 3 c4Root [c4Quote] c4Quote (by norm_num) hok (List.mem_singleton_self _)⟩

/-- Claim C5: with no error sentinel and K ≥ 1 of the `documento` elements
carrying a parsable non-empty `valor`, parsing succeeds and returns exactly
the quotes of those K documents, in their original relative order; documents
with a missing, empty or unparsable `valor` are skipped without an error. -/
theorem claim_C5 (lh : ℚ) (root : XmlNode)
    (herr : truthyErrorMsg root = none)
    (hK : 1 ≤ ((documentos root).filter hasParsableValor).length) :
    parseBusiness lh root =
      .ok (((documentos root).filter hasParsableValor).map (extractedQuote lh)) ∧
    (((documentos root).filter hasParsableValor).map (extractedQuote lh)).length =
      ((documentos root).filter hasParsableValor).length := by
  have hfm := filterMap_extractQuote lh (documentos root)
  have hne : ¬ (documentos root).isEmpty = true := by
    rcases hdocs : documentos root with _ | ⟨d, ds⟩
    · rw [hdocs] at hK; simp at hK
    · simp
  have hres : ¬ ((documentos root).filterMap (extractQuote lh)).isEmpty = true := by
    rw [hfm]
    rcases hf : (documentos root).filter hasParsableValor with _ | ⟨d, ds⟩
    · rw [hf] at hK; simp at hK
    · simp
  rw [parseBusiness_none lh root herr, parseDocuments_eq, if_neg hne, if_neg hres, hfm]
  exact ⟨rfl, by simp⟩

/-- Witness for claim C5: of two documents exactly one is priced, and parsing
returns exactly that one quote. -/
theorem claim_C5_witness :
    truthyErrorMsg c5Root = none ∧
    1 ≤ ((documentos c5Root).filter hasParsableValor).length ∧
    parseBusiness 0 c5Root =
      .ok (((documentos c5Root).filter hasParsableValor).map (extractedQuote 0)) := by
  refine ⟨by decide, by decide, ?_⟩
  exact (claim_C5 0 c5Root (by decide) (by decide)).1

/-- Claim C7: the two empty-result cases raise `NotFoundError` with different
messages — zero `documento` elements gives the "did not include any quotes"
message, a non-empty document list in which nothing has a usable `valor`
gives the "did not return monetary values" message, and the two messages are
distinct. -/
theorem claim_C7 (lh lh2 : ℚ) (root1 root2 : XmlNode)
    (h1err : truthyErrorMsg root1 = none)
    (h1docs : documentos root1 = [])
    (h2err : truthyErrorMsg root2 = none)
    (h2ne : documentos root2 ≠ [])
    (h2bad : ∀ d ∈ documentos root2, hasParsableValor d = false) :
    parseBusiness lh root1 =
      .error ⟨404, "Sicetac response did not include any quotes"⟩ ∧
    parseBusiness lh2 root2 =
      .error ⟨404, "Sicetac did not return monetary values for the requested parameters"⟩ ∧
    ("Sicetac response did not include any quotes" : String) ≠
      "Sicetac did not return monetary values for the requested parameters" := by
  refine ⟨?_, ?_, by decide⟩
  · rw [parseBusiness_none lh root1 h1err, parseDocuments_eq, h1docs]
    rfl
  · have hfm := filterMap_extractQuote lh2 (documentos root2)
    have hfilter : (documentos root2).filter hasParsableValor = [] := by
      rw [List.filter_eq_nil_iff]
      intro a ha
      simp [h2bad a ha]
    rw [hfilter] at hfm
    have hne : ¬ (documentos root2).isEmpty = true := by
      rcases hdocs : documentos root2 with _ | ⟨d, ds⟩
      · exact absurd hdocs h2ne
      · simp
    rw [parseBusiness_none lh2 root2 h2err, parseDocuments_eq, if_neg hne, hfm]
    rfl

/-- Witness for claim C7: a document with no `documento` children and one
whose single `documento` has no `valor` produce the two distinct messages. -/
theorem claim_C7_witness :
    truthyErrorMsg c7NoDocsRoot = none ∧ documentos c7NoDocsRoot = [] ∧
    truthyErrorMsg c7NoValuesRoot = none ∧ documentos c7NoValuesRoot ≠ [] ∧
    parseBusiness 0 c7NoDocsRoot =
      .error ⟨404, "Sicetac response did not include any quotes"⟩ ∧
    parseBusiness 0 c7NoValuesRoot =
      .error ⟨404, "Sicetac did not return monetary values for the requested parameters"⟩ := by
  have hne2 : documentos c7NoValuesRoot ≠ [] := fun h =>
    absurd (congrArg List.length h) (by decide)
  have h := claim_C7 0 0 c7NoDocsRoot c7NoValuesRoot (by decide) (by rfl) (by decide)
    hne2 (by decide)
  exact ⟨by decide, by rfl, by decide, hne2, h.1, h.2.1⟩

/-- Claim C10: the `ErrorMSG` check precedes document extraction, so a
document carrying both a non-empty `ErrorMSG` and priced `documento`
elements raises the upstream business error and never returns quotes. -/
theorem claim_C10 (lh : ℚ) (root : XmlNode) (msg : String)
    (herr : truthyErrorMsg root = some msg)
    (hpriced : 1 ≤ ((documentos root).filter hasParsableValor).length) :
    parseBusiness lh root = .error ⟨404, msg⟩ ∧
    ∀ res, parseBusiness lh root ≠ .ok res := by
  have h := parseBusiness_some lh root msg herr
  refine ⟨h, fun res hok => ?_⟩
  rw [h] at hok
  simp at hok

/-- Witness for claim C10: a root carrying both the sentinel `NO DATA` and a
priced document yields the business error, not the quote. -/
theorem claim_C10_witness :
    truthyErrorMsg c10Root = some ("NO DATA") ∧
    1 ≤ ((documentos c10Root).filter hasParsableValor).length ∧
    parseBusiness 0 c10Root = .error ⟨404, "NO DATA"⟩ := by
  refine ⟨by decide, by decide, ?_⟩
  exact (claim_C10 0 c10Root ("NO DATA") (by decide) (by decide)).1

/-- Claim C6: a present, non-empty top-level `ErrorMSG` makes the decoder
raise the upstream business error carrying exactly the trimmed sentinel text
(the specification's example document produces exactly
`NO SE ENCONTRO INFORMACION`), and the error can never cause a retry: the
transport attempt count is already fixed (at 1 when the first attempt
succeeded) before parsing runs. -/
theorem claim_C6 (lh : ℚ) (root errorNode : XmlNode) (t : String)
    (hfind : root.children.find? (fun e => e.tag == "ErrorMSG") = some errorNode)
    (htext : errorNode.text = some t) (hne : t ≠ "") :
    parseBusiness lh root = .error ⟨404, pyStrip t⟩ ∧
    parseBusiness lh demoErrorRoot = .error ⟨404, "NO SE ENCONTRO INFORMACION"⟩ ∧
    (∀ (attemptOf : Nat → AttemptOutcome) (px : String → Option XmlNode)
        (code : Nat) (text : String),
      attemptOf 1 = .response code text → code < 400 →
      (fetchQuotes px lh attemptOf).2 = 1) := by
  refine ⟨?_, by rfl, ?_⟩
  · have hmsg : truthyErrorMsg root = some (pyStrip t) := by
      unfold truthyErrorMsg
      rw [hfind]
      dsimp only
      rw [htext]
      dsimp only
      rw [if_pos hne]
    exact parseBusiness_some lh root _ hmsg
  · intro attemptOf px code text h1 hc
    have hp1 := postAttempt_ok _ code text h1 hc
    rcases hpr : parseResponse px lh text with e | res <;>
      simp [fetchQuotes, postPayload, stopAfterAttempt, retryGo, hp1, hpr]

/-- Witness for claim C6 at the specification's sentinel document. -/
theorem claim_C6_witness :
    demoErrorRoot.children.find? (fun e => e.tag == "ErrorMSG") =
      some (.elem ("ErrorMSG") (some ("NO SE ENCONTRO INFORMACION")) []) ∧
    parseBusiness 0 demoErrorRoot =
      .error ⟨404, pyStrip ("NO SE ENCONTRO INFORMACION")⟩ := by
  refine ⟨by rfl, ?_⟩
  exact (claim_C6 0 demoErrorRoot (.elem ("ErrorMSG") (some ("NO SE ENCONTRO INFORMACION")) [])
    ("NO SE ENCONTRO INFORMACION") (by rfl) (by rfl) (by decide)).1

theorem iterNodes_elem (t : String) (x : Option String) (cs : List XmlNode) :
    iterNodes (.elem t x cs) = .elem t x cs :: (cs.map iterNodes).flatten := by
  rw [iterNodes]
  simp [List.attach_map_coe]

theorem extractReturnText_soapEnvelope (envTag bodyTag respTag retTag txt : String)
    (hb : containsSub ("Body") bodyTag = true)
    (hr : containsSub ("AtenderMensajeRNDCResponse") respTag = true)
    (ht : containsSub ("return") (pyLower retTag) = true)
    (hn : containsSub ("return") (pyLower respTag) = false) :
    extractReturnText (soapEnvelope envTag bodyTag respTag retTag txt) = .ok txt := by
  have hbody : findBody (soapEnvelope envTag bodyTag respTag retTag txt) =
      some (.elem bodyTag none [.elem respTag none [.elem retTag (some txt) []]]) := by
    unfold findBody soapEnvelope
    dsimp only [XmlNode.children]
    exact List.find?_cons_of_pos _ (by simpa [XmlNode.tag] using hb)
  have hresp : findResponseElem
      (.elem bodyTag none [.elem respTag none [.elem retTag (some txt) []]]) =
      some (.elem respTag none [.elem retTag (some txt) []]) := by
    unfold findResponseElem
    dsimp only [XmlNode.children]
    exact List.find?_cons_of_pos _ (by simpa [XmlNode.tag] using hr)
  have hret : findReturnElem (.elem respTag none [.elem retTag (some txt) []]) =
      some (.elem retTag (some txt) []) := by
    unfold findReturnElem
    have hiter : iterNodes (.elem respTag none [.elem retTag (some txt) []]) =
        [.elem respTag none [.elem retTag (some txt) []], .elem retTag (some txt) []] := by
      rw [iterNodes_elem]
      simp [iterNodes_elem]
    rw [hiter]
    rw [List.find?_cons_of_neg _ (by simp [XmlNode.tag, hn])]
    rw [List.find?_cons_of_pos _ (by simpa [XmlNode.tag] using ht)]
  unfold extractReturnText
  rw [hbody]
  dsimp only
  rw [hresp]
  dsimp only
  rw [hret]
  dsimp only [XmlNode.text]

/-- Claim C8: the decoder matches the Body, response and return elements by
substring/local-name, so two envelopes with the same structure and return
text but different namespace prefixes on those elements decode to the same
return text, and the whole response parse gives the same result for both. -/
theorem claim_C8 (env1 b1 r1 rt1 env2 b2 r2 rt2 txt : String)
    (hb1 : containsSub ("Body") b1 = true)
    (hr1 : containsSub ("AtenderMensajeRNDCResponse") r1 = true)
    (ht1 : containsSub ("return") (pyLower rt1) = true)
    (hn1 : containsSub ("return") (pyLower r1) = false)
    (hb2 : containsSub ("Body") b2 = true)
    (hr2 : containsSub ("AtenderMensajeRNDCResponse") r2 = true)
    (ht2 : containsSub ("return") (pyLower rt2) = true)
    (hn2 : containsSub ("return") (pyLower r2) = false) :
    extractReturnText (soapEnvelope env1 b1 r1 rt1 txt) = .ok txt ∧
    extractReturnText (soapEnvelope env2 b2 r2 rt2 txt) = .ok txt ∧
    (∀ (px : String → Option XmlNode) (lh : ℚ) (s1 s2 : String),
      px s1 = some (soapEnvelope env1 b1 r1 rt1 txt) →
      px s2 = some (soapEnvelope env2 b2 r2 rt2 txt) →
      parseResponse px lh s1 = parseResponse px lh s2) := by
  have e1 := extractReturnText_soapEnvelope env1 b1 r1 rt1 txt hb1 hr1 ht1 hn1
  have e2 := extractReturnText_soapEnvelope env2 b2 r2 rt2 txt hb2 hr2 ht2 hn2
  refine ⟨e1, e2, ?_⟩
  intro px lh s1 s2 hs1 hs2
  unfold parseResponse
  rw [hs1, hs2]
  dsimp only
  rw [e1, e2]

/-- Witness for claim C8: a fully namespace-qualified envelope (as
ElementTree renders declared prefixes) and a prefix-free one with an
upper-case `RETURN` decode to the same return text. -/
theorem claim_C8_witness :
    extractReturnText (soapEnvelope
      ("\x7bhttp://schemas.xmlsoap.org/soap/envelope/\x7dEnvelope")
      ("\x7bhttp://schemas.xmlsoap.org/soap/envelope/\x7dBody")
      ("\x7burn:BPMServicesIntf-IBPMServices\x7dAtenderMensajeRNDCResponse")
      ("return") ("PAYLOAD")) = .ok ("PAYLOAD") ∧
    extractReturnText (soapEnvelope ("Envelope") ("Body")
      ("AtenderMensajeRNDCResponse") ("RETURN") ("PAYLOAD")) = .ok ("PAYLOAD") := by
  have h := claim_C8
    ("\x7bhttp://schemas.xmlsoap.org/soap/envelope/\x7dEnvelope")
    ("\x7bhttp://schemas.xmlsoap.org/soap/envelope/\x7dBody")
    ("\x7burn:BPMServicesIntf-IBPMServices\x7dAtenderMensajeRNDCResponse")
    ("return") ("Envelope") ("Body") ("AtenderMensajeRNDCResponse") ("RETURN")
    ("PAYLOAD") (by decide) (by decide) (by decide) (by decide) (by decide)
    (by decide) (by decide) (by decide)
  exact ⟨h.1, h.2.1⟩

/-- Claim C9: an empty `variables` override behaves exactly like an absent
one — Python `or` treats the empty list as falsy — so the payload is built
with the fixed default 8-name variable set, never with an empty variable
list. -/
theorem claim_C9 (settings : Settings) (q : QuoteRequest)
    (h : q.variablesField = some []) :
    buildPayload settings q =
      buildPayload settings { q with variablesField := none } ∧
    chosenVariables q.variablesField = defaultVariables ∧
    chosenVariables none = defaultVariables ∧
    defaultVariables = ["RUTA", "NOMBREUNIDADTRANSPORTE", "NOMBRETIPOCARGA",
      "NOMBRERUTA", "VALOR", "VALORTONELADA", "VALORHORA", "DISTANCIA"] := by
  refine ⟨?_, ?_, rfl, rfl⟩
  · unfold buildPayload innerXml variableString
    rw [h]
    rw [show ({ q with variablesField := none } : QuoteRequest).variablesField =
      none from rfl]
    rw [show chosenVariables (some ([] : List String)) = defaultVariables from by decide]
    rw [show chosenVariables (none : Option (List String)) = defaultVariables from rfl]
    rw [show documentSection ({ q with variablesField := none } : QuoteRequest) =
      documentSection q from rfl]
  · rw [h]
    decide

/-- Witness for claim C9 at a concrete validated request carrying
`variables = []`. -/
theorem claim_C9_witness :
    c9Request.variablesField = some [] ∧
    buildPayload c9Settings c9Request =
      buildPayload c9Settings { c9Request with variablesField := none } ∧
    chosenVariables c9Request.variablesField = defaultVariables := by
  have h := claim_C9 c9Settings c9Request (by rfl)
  exact ⟨by rfl, h.1, h.2.1⟩

end Sicetac
